import Mathlib

/-!
Verification development for the sonic-linkmgrd MUX link manager core.

The definitions below shallowly embed, in Lean, the parts of the repository
that the verified properties are about:

* `DbInterface` operations (`handleSetMuxState`, `getTorMacAddress`,
  `processLoopback2InterfaceInfo`, `processMuxLinkmgrConfigNotifiction`)
  translated from `src/DbInterface.cpp`;
* `MuxManager` operations (`handleUpdateReconciliationCount`,
  `handleWarmRestartReconciliationTimeout`, `addOrUpdateDefaultRouteState`)
  translated from the `MuxManager` part of the same source;
* a per-port composite state machine for the active-active cable type,
  modelled from the specification (the implementation of the machine is not
  part of the provided sources; only its unit tests are), and validated
  against the behaviour those tests pin down.

External collaborators (the boost address parser, `swss::MacAddress`,
`boost::lexical_cast`) are represented as function parameters, since their
code is outside the repository.
-/

namespace Linkmgrd

/-- Labels of the MUX state sub-machine, in the order of the C++ enum
`mux_state::MuxState::Label` (`Active`, `Standby`, `Unknown`, `Error`,
`Wait`). -/
inductive MuxLabel where
  | Active
  | Standby
  | Unknown
  | Error
  | Wait
deriving DecidableEq, Repr

/-- Numeric value of a `MuxState::Label` enumerator, used by the C++ guard
`label <= mux_state::MuxState::Label::Unknown`. -/
def muxLabelIndex : MuxLabel → Nat
  | .Active => 0
  | .Standby => 1
  | .Unknown => 2
  | .Error => 3
  | .Wait => 4

/-- The table `DbInterface::mMuxState = {"active", "standby", "unknown",
"Error"}` from `DbInterface.cpp`. -/
def muxStateStrings : List String := ["active", "standby", "unknown", "Error"]

/-- Embedding of `DbInterface::handleSetMuxState`: when the label satisfies
`label <= MuxState::Label::Unknown` the handler sets the APP DB MuxCable
entry for the port to the field-value list `{{"state", mMuxState[label]}}`;
otherwise it writes nothing.  The result is `some (port, fieldValues)` for a
write and `none` for no write. -/
def handleSetMuxState (portName : String) (label : MuxLabel) :
    Option (String × List (String × String)) :=
  if muxLabelIndex label ≤ 2 then
    some (portName, [("state", muxStateStrings.getD (muxLabelIndex label) "")])
  else
    none

/-- Error taxonomy of `common/MuxException` as used by the embedded
functions. -/
inductive MuxError where
  | ConfigNotFound
  | BadAlloc
deriving DecidableEq, Repr

/-- Embedding of `DbInterface::getTorMacAddress` combined with
`DbInterface::processTorMacAddress`.  The `hget` of field `mac` on key
`localhost` of the DeviceMetadata table is represented by `macField`; the
`swss::MacAddress` constructor (external to the repository) is represented
by the predicate `parseOk`, true when the constructor succeeds.  A missing
field throws `ConfigNotFound` ("ToR MAC address is not found"); a parse
failure throws `ConfigNotFound` ("Invalid ToR MAC address"). -/
def getTorMacAddress (parseOk : String → Bool) (macField : Option String) :
    Except MuxError Unit :=
  match macField with
  | some mac => if parseOk mac then .ok () else .error .ConfigNotFound
  | none => .error .ConfigNotFound

/-- Classification result of `boost::asio::ip::make_address`, which is
external to the repository: a string parses as an IPv4 address, as an IPv6
address, or fails to parse. -/
inductive AddrKind where
  | V4
  | V6
  | Invalid
deriving DecidableEq, Repr

/-- `pat.isPrefixOf (l.drop i)` for some `i`: whether `pat` occurs as a
contiguous substring of `l`.  This models `std::string::find(pat) != npos`. -/
def listContainsSub (l pat : List Char) : Bool :=
  (List.range (l.length + 1)).any fun i => pat.isPrefixOf (l.drop i)

/-- `s.find(pat) != std::string::npos` on strings. -/
def strContainsSub (s pat : String) : Bool :=
  listContainsSub s.toList pat.toList

/-- The literal prefix `"Loopback2|"` from
`DbInterface::processLoopback2InterfaceInfo`. -/
def loopback2Tag : String := "Loopback2|"

/-- `ip.erase(ip.find("/"))`: keep the characters before the first slash. -/
def stripSlashSuffix (s : String) : String :=
  String.mk (s.toList.takeWhile (· ≠ '/'))

/-- The IP extraction step of `processLoopback2InterfaceInfo`: if the key
contains `"Loopback2|"` the code takes `key.substr(loopback2.size())`
(dropping exactly `loopback2.size()` characters from the front) and erases
everything from the first `/` on; otherwise the key is skipped. -/
def loopback2Extract (key : String) : Option String :=
  if strContainsSub key loopback2Tag then
    some (stripSlashSuffix (String.mk (key.toList.drop loopback2Tag.length)))
  else
    none

/-- Whether one loop iteration of `processLoopback2InterfaceInfo` sets
`loopback2IPv4Found` for this key: the extracted string parses as an IPv4
address. -/
def loopback2YieldsV4 (parseAddr : String → AddrKind) (key : String) : Bool :=
  match loopback2Extract key with
  | some ip => parseAddr ip == AddrKind.V4
  | none => false

/-- Embedding of `DbInterface::processLoopback2InterfaceInfo`: the loop ORs
`loopback2IPv4Found` over the keys, and after the loop the function throws
`ConfigNotFound` ("Loopback2 IPv4 address missing") exactly when the flag is
still false. -/
def processLoopback2InterfaceInfo (parseAddr : String → AddrKind)
    (loopbackIntfs : List String) : Except MuxError Unit :=
  let found := loopbackIntfs.foldl
    (fun acc key => acc || loopback2YieldsV4 parseAddr key) false
  if found then .ok () else .error .ConfigNotFound

/-- Embedding of the startup part of `DbInterface::handleSwssNotification`:
`getTorMacAddress` and `getLoopback2InterfaceInfo` run before
`getServerIpAddress`, which is what creates the per-port supervisors
(`MuxManager::addOrUpdateMuxPort`).  An exception from either config read
propagates, so the supervisor list (here: the port names that
`getServerIpAddress` would create) never materialises. -/
def startupSupervisors (parseOk : String → Bool)
    (parseAddr : String → AddrKind) (macField : Option String)
    (loopbackIntfs : List String) (serverIpPorts : List String) :
    Except MuxError (List String) := do
  getTorMacAddress parseOk macField
  processLoopback2InterfaceInfo parseAddr loopbackIntfs
  pure serverIpPorts

/-- The five link-prober tunables of `MuxConfig` written by the
`LINK_PROBER` branch of `DbInterface::processMuxLinkmgrConfigNotifiction`. -/
structure LinkProberConfig where
  timeoutIpv4 : Nat
  timeoutIpv6 : Nat
  positiveSignalCount : Nat
  negativeSignalCount : Nat
  suspendTimer : Nat
deriving DecidableEq, Repr

/-- One field-value assignment inside the `try` block of the `LINK_PROBER`
branch: the five recognised field names call the corresponding setter with
`boost::lexical_cast<uint32_t>(v)` (represented by the external parser
`lexCast`; `none` models a thrown `bad_lexical_cast`); any other field name
is ignored.  `none` as a result means the exception escapes this assignment. -/
def applyLinkProberField (lexCast : String → Option Nat)
    (cfg : LinkProberConfig) (f v : String) : Option LinkProberConfig :=
  if f = "interval_v4" then
    (lexCast v).map fun n => { cfg with timeoutIpv4 := n }
  else if f = "interval_v6" then
    (lexCast v).map fun n => { cfg with timeoutIpv6 := n }
  else if f = "positive_signal_count" then
    (lexCast v).map fun n => { cfg with positiveSignalCount := n }
  else if f = "negative_signal_count" then
    (lexCast v).map fun n => { cfg with negativeSignalCount := n }
  else if f = "suspend_timer" then
    (lexCast v).map fun n => { cfg with suspendTimer := n }
  else
    some cfg

/-- The `try { for fieldValue : fieldValues ... } catch (bad_lexical_cast)`
loop of the `LINK_PROBER` branch: assignments run in order until one throws;
the `catch` logs a warning and keeps the configuration reached so far.  The
boolean records whether a bad-cast warning was logged. -/
def processLinkProberFields (lexCast : String → Option Nat) :
    LinkProberConfig → List (String × String) → LinkProberConfig × Bool
  | cfg, [] => (cfg, false)
  | cfg, (f, v) :: rest =>
    match applyLinkProberField lexCast cfg f v with
    | some cfg' => processLinkProberFields lexCast cfg' rest
    | none => (cfg, true)

/-- Whether a field name is one of the five integer tunables parsed by the
`LINK_PROBER` branch. -/
def isLinkProberIntField (f : String) : Bool :=
  f = "interval_v4" || f = "interval_v6" || f = "positive_signal_count" ||
    f = "negative_signal_count" || f = "suspend_timer"

/-- Embedding of `DbInterface::processMuxLinkmgrConfigNotifiction` restricted
to the tunables: each entry with key `LINK_PROBER` runs
`processLinkProberFields` on its field values (its `catch` confines a bad
cast to that entry); other keys leave the tunables unchanged. -/
def processMuxLinkmgrConfigNotifiction (lexCast : String → Option Nat)
    (cfg : LinkProberConfig)
    (entries : List (String × List (String × String))) : LinkProberConfig :=
  entries.foldl
    (fun c e =>
      if e.1 = "LINK_PROBER" then (processLinkProberFields lexCast c e.2).1
      else c)
    cfg

/-- State touched by the `MuxManager` warm-restart reconciliation handlers:
the shared port counter `mPortReconciliationCount`, whether
`mReconciliationTimer.cancel()` has been invoked, and whether
`setWarmStartStateReconciled` has been invoked. -/
structure ReconciliationState where
  portReconciliationCount : Int
  timerCancelled : Bool
  warmStartReconciled : Bool
deriving DecidableEq, Repr

/-- Embedding of `MuxManager::handleUpdateReconciliationCount`:
`mPortReconciliationCount += increment`, then the timer is cancelled exactly
when the updated count equals zero.  The boolean result records whether this
call invoked `cancel()`. -/
def handleUpdateReconciliationCount (increment : Int)
    (s : ReconciliationState) : ReconciliationState × Bool :=
  let c := s.portReconciliationCount + increment
  if c = 0 then
    ({ s with portReconciliationCount := c, timerCancelled := true }, true)
  else
    ({ s with portReconciliationCount := c }, false)

/-- Embedding of `MuxManager::handleWarmRestartReconciliationTimeout`: the
error code only selects the log message; `setWarmStartStateReconciled` is
invoked unconditionally. -/
def handleWarmRestartReconciliationTimeout (_errorCodeSuccess : Bool)
    (s : ReconciliationState) : ReconciliationState :=
  { s with warmStartReconciled := true }

/-- A sequence of `handleUpdateReconciliationCount` calls, in order. -/
def applyReconciliationUpdates (incs : List Int) (s : ReconciliationState) :
    ReconciliationState :=
  incs.foldl (fun t i => (handleUpdateReconciliationCount i t).1) s

/-- State read and written by `MuxManager::addOrUpdateDefaultRouteState`:
the last reported IPv4 and IPv6 default-route states and the port map
(represented by its port names, in iteration order). -/
structure RouteMgrState where
  ipv4DefaultRouteState : String
  ipv6DefaultRouteState : String
  portMap : List String
deriving DecidableEq, Repr

/-- Embedding of `MuxManager::addOrUpdateDefaultRouteState`: record the
report in the v4 or v6 slot, compute `nextState` ("ok" exactly when the
recorded IPv4 state is "ok", otherwise "na"), then call
`handleDefaultRouteState(nextState)` on every port of the port map.  The
second component lists the deliveries `(port, nextState)` in order. -/
def addOrUpdateDefaultRouteState (isV4 : Bool) (routeState : String)
    (s : RouteMgrState) : RouteMgrState × List (String × String) :=
  let s' :=
    if isV4 then { s with ipv4DefaultRouteState := routeState }
    else { s with ipv6DefaultRouteState := routeState }
  let nextState := if s'.ipv4DefaultRouteState = "ok" then "ok" else "na"
  (s', s'.portMap.map fun p => (p, nextState))

/-- Modelled from the spec: labels of the local link-prober sub-machine
(`LinkManagerStateMachineBase::mLinkProberStateName = {"Active", "Standby",
"Unknown", "Wait"}`); the active-active local prober uses `Active`,
`Unknown` and the initial `Wait`. -/
inductive ProberLabel where
  | Active
  | Standby
  | Unknown
  | Wait
deriving DecidableEq, Repr

/-- Modelled from the spec: labels of the peer link-prober view
(`PeerActive`, `PeerUnknown`, initial `PeerWait`). -/
inductive PeerProberLabel where
  | PeerActive
  | PeerUnknown
  | PeerWait
deriving DecidableEq, Repr

/-- Labels of the link-state sub-machine
(`LinkManagerStateMachineBase::mLinkStateName = {"Up", "Down"}`). -/
inductive LinkLabel where
  | Up
  | Down
deriving DecidableEq, Repr

/-- Modes of `common::MuxPortConfig::Mode` as selected by
`MuxPort::handleMuxConfig` strings (`auto`, `active`, `manual`, `standby`,
`detach`). -/
inductive Mode where
  | Auto
  | Active
  | Manual
  | Standby
  | Detached
deriving DecidableEq, Repr

/-- Hysteresis thresholds of `common::MuxConfig` used by the per-port
machine: `PositiveStateChangeRetryCount`, `NegativeStateChangeRetryCount`,
`MuxStateChangeRetryCount`, `LinkStateChangeRetryCount`. -/
structure MuxPortConfigModel where
  positiveThreshold : Nat
  negativeThreshold : Nat
  muxThreshold : Nat
  linkThreshold : Nat
deriving DecidableEq, Repr

/-- Modelled from the spec: the per-port state of the active-active link
manager state machine, whose implementation is not among the provided
sources (only its unit tests are).  It carries the composite tuple
`(prober, mux, link)`, the peer view `(peerProber, peerMux)`, the mode, the
consecutive-verdict counters of the hysteresis policy (§4.1), and the
observable request counters that the unit tests assert
(`mSetMuxStateInvokeCount`, `mLastSetMuxState`,
`mSetPeerMuxStateInvokeCount`, `mLastSetPeerMuxState`,
`mSuspendTxProbeCallCount`, probe requests). -/
@[ext]
structure PortState where
  config : MuxPortConfigModel
  prober : ProberLabel
  mux : MuxLabel
  link : LinkLabel
  peerProber : PeerProberLabel
  peerMux : MuxLabel
  mode : Mode
  proberActiveCount : Nat
  proberUnknownCount : Nat
  peerActiveCount : Nat
  peerUnknownCount : Nat
  muxReportLabel : MuxLabel
  muxReportCount : Nat
  linkUpCount : Nat
  linkDownCount : Nat
  setMuxStateInvokeCount : Nat
  lastSetMuxState : Option MuxLabel
  setPeerMuxStateInvokeCount : Nat
  lastSetPeerMuxState : Option MuxLabel
  suspendTxCount : Nat
  probeCount : Nat
deriving DecidableEq, Repr

/-- Modelled from the spec: the initial per-port state after
`activateStateMachine`, with composite `(Wait, Wait, Down)` (§4.1) and the
peer view `(PeerWait, Wait)`, mode `Auto`, and all counters zero. -/
def initialPortState (config : MuxPortConfigModel) : PortState where
  config := config
  prober := .Wait
  mux := .Wait
  link := .Down
  peerProber := .PeerWait
  peerMux := .Wait
  mode := .Auto
  proberActiveCount := 0
  proberUnknownCount := 0
  peerActiveCount := 0
  peerUnknownCount := 0
  muxReportLabel := .Wait
  muxReportCount := 0
  linkUpCount := 0
  linkDownCount := 0
  setMuxStateInvokeCount := 0
  lastSetMuxState := none
  setPeerMuxStateInvokeCount := 0
  lastSetPeerMuxState := none
  suspendTxCount := 0
  probeCount := 0

/-- Modelled from the spec: a local hardware-toggle request
(`MuxPort::setMuxState` via `DbInterface::setMuxState`).  The active-active
machine records the target in the composite tuple at request time, as the
unit tests show the composite mux label switching with the request, before
any driver confirmation. -/
def switchMuxState (target : MuxLabel) (s : PortState) : PortState :=
  { s with
    mux := target
    setMuxStateInvokeCount := s.setMuxStateInvokeCount + 1
    lastSetMuxState := some target }

/-- Modelled from the spec: a peer-switch request
(`MuxPort::setPeerMuxState` over the peer-notification channel), recording
the target in the peer mux view. -/
def switchPeerMuxState (target : MuxLabel) (s : PortState) : PortState :=
  { s with
    peerMux := target
    setPeerMuxStateInvokeCount := s.setPeerMuxStateInvokeCount + 1
    lastSetPeerMuxState := some target }

/-- Modelled from the spec: `suspend_tx` sent to the link prober. -/
def suspendTx (s : PortState) : PortState :=
  { s with suspendTxCount := s.suspendTxCount + 1 }

/-- Modelled from the spec: the transition run when the local prober
sub-state advances after hysteresis (§4.1, active-active policy): on advance
to `Active`, in `Auto` mode with the link up, request a local toggle to
`Active` unless the mux label is already `Active`; on advance to `Unknown`,
in `Auto` mode with the link up, request a local toggle to `Standby` unless
the mux label is already `Standby`, and suspend prober transmission. -/
def proberAdvance (label : ProberLabel) (s : PortState) : PortState :=
  let s' := { s with prober := label }
  match label with
  | .Active =>
    if s'.mode = .Auto ∧ s'.link = .Up ∧ s'.mux ≠ .Active then
      switchMuxState .Active s'
    else s'
  | .Unknown =>
    if s'.mode = .Auto ∧ s'.link = .Up ∧ s'.mux ≠ .Standby then
      suspendTx (switchMuxState .Standby s')
    else s'
  | _ => s'

/-- Modelled from the spec: one `SelfActive` prober verdict.  Hysteresis
(§4.1): a verdict matching the current sub-state only clears the counters; a
non-matching verdict increments the consecutive-`SelfActive` counter and
resets the opposite one, and the sub-state advances exactly when the counter
reaches `PositiveStateChangeRetryCount`. -/
def handleSelfActive (s : PortState) : PortState :=
  if s.prober = .Active then
    { s with proberActiveCount := 0, proberUnknownCount := 0 }
  else
    let c := s.proberActiveCount + 1
    if s.config.positiveThreshold ≤ c then
      proberAdvance .Active { s with proberActiveCount := 0, proberUnknownCount := 0 }
    else
      { s with proberActiveCount := c, proberUnknownCount := 0 }

/-- Modelled from the spec: one `SelfUnknown` prober verdict, with
`NegativeStateChangeRetryCount` hysteresis, advancing to `Unknown`. -/
def handleSelfUnknown (s : PortState) : PortState :=
  if s.prober = .Unknown then
    { s with proberActiveCount := 0, proberUnknownCount := 0 }
  else
    let c := s.proberUnknownCount + 1
    if s.config.negativeThreshold ≤ c then
      proberAdvance .Unknown { s with proberActiveCount := 0, proberUnknownCount := 0 }
    else
      { s with proberActiveCount := 0, proberUnknownCount := c }

/-- Modelled from the spec: the transition run when the peer prober
sub-state advances (§4.1): on `PeerActive` the peer mux view becomes
`Active` with no request; on `PeerUnknown`, when the mode is not `Detached`
and the local prober is `Active` ("`PeerUnknown` ∧ self=`Active` may request
the peer to yield", corroborated by the `MuxStandbyLinkProberPeerUnknown`
unit test), a peer-switch request to `Standby` is issued; otherwise
nothing. -/
def peerProberAdvance (label : PeerProberLabel) (s : PortState) : PortState :=
  let s' := { s with peerProber := label }
  match label with
  | .PeerActive => { s' with peerMux := .Active }
  | .PeerUnknown =>
    if s'.mode ≠ .Detached ∧ s'.prober = .Active then
      switchPeerMuxState .Standby s'
    else s'
  | .PeerWait => s'

/-- Modelled from the spec: one `PeerActive` prober verdict with
`PositiveStateChangeRetryCount` hysteresis. -/
def handlePeerActive (s : PortState) : PortState :=
  if s.peerProber = .PeerActive then
    { s with peerActiveCount := 0, peerUnknownCount := 0 }
  else
    let c := s.peerActiveCount + 1
    if s.config.positiveThreshold ≤ c then
      peerProberAdvance .PeerActive { s with peerActiveCount := 0, peerUnknownCount := 0 }
    else
      { s with peerActiveCount := c, peerUnknownCount := 0 }

/-- Modelled from the spec: one `PeerUnknown` prober verdict with
`NegativeStateChangeRetryCount` hysteresis. -/
def handlePeerUnknown (s : PortState) : PortState :=
  if s.peerProber = .PeerUnknown then
    { s with peerActiveCount := 0, peerUnknownCount := 0 }
  else
    let c := s.peerUnknownCount + 1
    if s.config.negativeThreshold ≤ c then
      peerProberAdvance .PeerUnknown { s with peerActiveCount := 0, peerUnknownCount := 0 }
    else
      { s with peerActiveCount := 0, peerUnknownCount := c }

/-- Modelled from the spec: the action on an advance of the mux sub-machine
driven by driver reports (§4.1 `on_mux_report`): the label is recorded in
the composite tuple; a definite `Unknown` in `Auto` mode triggers an i2c
probe request. -/
def muxReportAdvance (label : MuxLabel) (s : PortState) : PortState :=
  let s' := { s with mux := label }
  if label = .Unknown ∧ s'.mode = .Auto then
    { s' with probeCount := s'.probeCount + 1 }
  else s'

/-- Modelled from the spec: one driver mux-state report
(`MuxPort::handleMuxState`), with `MuxStateChangeRetryCount` hysteresis: a
report matching the composite mux label clears the pending-report counter
(a confirming report clears the pending toggle); a repeated non-matching
report advances the sub-machine when its count reaches the threshold. -/
def handleMuxReport (label : MuxLabel) (s : PortState) : PortState :=
  if label = s.mux then
    { s with muxReportLabel := label, muxReportCount := 0 }
  else if label = s.muxReportLabel then
    let c := s.muxReportCount + 1
    if s.config.muxThreshold ≤ c then
      muxReportAdvance label { s with muxReportCount := 0 }
    else
      { s with muxReportCount := c }
  else
    if s.config.muxThreshold ≤ 1 then
      muxReportAdvance label { s with muxReportLabel := label, muxReportCount := 0 }
    else
      { s with muxReportLabel := label, muxReportCount := 1 }

/-- Modelled from the spec: one peer mux-state report
(`MuxPort::handlePeerMuxState`), which only updates the peer view. -/
def handlePeerMuxReport (label : MuxLabel) (s : PortState) : PortState :=
  { s with peerMux := label }

/-- Modelled from the spec: the transition run when the link sub-machine
advances: link `Down` while the mux label is `Active` requests a fail-safe
toggle to `Standby`; link `Up` resumes observation with no request. -/
def linkAdvance (label : LinkLabel) (s : PortState) : PortState :=
  let s' := { s with link := label }
  match label with
  | .Down => if s'.mux = .Active then switchMuxState .Standby s' else s'
  | .Up => s'

/-- Modelled from the spec: one link `Up` oper-status event with
`LinkStateChangeRetryCount` hysteresis. -/
def handleLinkUp (s : PortState) : PortState :=
  if s.link = .Up then
    { s with linkUpCount := 0, linkDownCount := 0 }
  else
    let c := s.linkUpCount + 1
    if s.config.linkThreshold ≤ c then
      linkAdvance .Up { s with linkUpCount := 0, linkDownCount := 0 }
    else
      { s with linkUpCount := c, linkDownCount := 0 }

/-- Modelled from the spec: one link `Down` oper-status event with
`LinkStateChangeRetryCount` hysteresis. -/
def handleLinkDown (s : PortState) : PortState :=
  if s.link = .Down then
    { s with linkUpCount := 0, linkDownCount := 0 }
  else
    let c := s.linkDownCount + 1
    if s.config.linkThreshold ≤ c then
      linkAdvance .Down { s with linkUpCount := 0, linkDownCount := 0 }
    else
      { s with linkUpCount := 0, linkDownCount := c }

/-- Mode selected by a `handleMuxConfig` string, per
`MuxPort::handleMuxConfig` (`auto`, `active`, `manual`, `standby`,
`detach`); any other string changes nothing. -/
def parseMode (config : String) : Option Mode :=
  if config = "auto" then some .Auto
  else if config = "active" then some .Active
  else if config = "manual" then some .Manual
  else if config = "standby" then some .Standby
  else if config = "detach" then some .Detached
  else none

/-- Modelled from the spec: a config-mode change (§4.1 `on_mode_change`):
`Active`/`Standby` pin the target and immediately request a toggle when the
mux label differs; `Auto` re-enables automatic toggling and re-evaluates the
composite tuple (prober `Active` with the link up toggles to `Active` when
needed, prober `Unknown` toggles to `Standby` when needed); `Manual` freezes
decisions; `Detached` stops peer-switch requests while remaining
observable. -/
def handleMuxConfig (config : String) (s : PortState) : PortState :=
  match parseMode config with
  | none => s
  | some m =>
    let s' := { s with mode := m }
    match m with
    | .Active => if s'.mux ≠ .Active then switchMuxState .Active s' else s'
    | .Standby => if s'.mux ≠ .Standby then switchMuxState .Standby s' else s'
    | .Auto =>
      if s'.link = .Up ∧ s'.prober = .Active ∧ s'.mux ≠ .Active then
        switchMuxState .Active s'
      else if s'.link = .Up ∧ s'.prober = .Unknown ∧ s'.mux ≠ .Standby then
        switchMuxState .Standby s'
      else s'
    | .Manual => s'
    | .Detached => s'

/-- A peer-only signal: a peer prober verdict or a peer mux-state report. -/
inductive PeerEvent where
  | peerActiveVerdict
  | peerUnknownVerdict
  | peerMuxReport (label : MuxLabel)
deriving DecidableEq, Repr

/-- Dispatch of a peer-only signal to its handler. -/
def stepPeerEvent (e : PeerEvent) (s : PortState) : PortState :=
  match e with
  | .peerActiveVerdict => handlePeerActive s
  | .peerUnknownVerdict => handlePeerUnknown s
  | .peerMuxReport label => handlePeerMuxReport label s

/-- A sequence of peer-only signals, applied in order. -/
def applyPeerEvents (events : List PeerEvent) (s : PortState) : PortState :=
  events.foldl (fun t e => stepPeerEvent e t) s

/-- The composite tuple `(prober, mux, link)` of a port state. -/
def compositeOf (s : PortState) : ProberLabel × MuxLabel × LinkLabel :=
  (s.prober, s.mux, s.link)

/-- The configuration the unit tests run with: all four retry thresholds set
to 3. -/
def testConfig : MuxPortConfigModel where
  positiveThreshold := 3
  negativeThreshold := 3
  muxThreshold := 3
  linkThreshold := 3

/-- The state reached by `activateStateMachine` followed by three link-up
events: composite `(Wait, Wait, Up)`. -/
def bootLinkUpState : PortState :=
  (handleLinkUp)^[3] (initialPortState testConfig)

/-- The state built by the `setMuxActive` test fixture: three `SelfActive`
verdicts from `(Wait, Wait, Up)` followed by three confirming `active`
driver reports, reaching composite `(Active, Active, Up)`. -/
def muxActiveState : PortState :=
  (handleMuxReport .Active)^[3] ((handleSelfActive)^[3] bootLinkUpState)

/-- The state built by the `setMuxStandby` test fixture: three `SelfUnknown`
verdicts from `(Wait, Wait, Up)` followed by three confirming `standby`
driver reports, reaching composite `(Unknown, Standby, Up)`. -/
def muxStandbyState : PortState :=
  (handleMuxReport .Standby)^[3] ((handleSelfUnknown)^[3] bootLinkUpState)

/-- The claim that every `handleSetMuxState` write carries `"active"` or
`"standby"` fails at the `Unknown` label: the C++ guard
`label <= MuxState::Label::Unknown` admits it, and the published value is
`"unknown"`. -/
theorem claim_C2_counterexample :
    handleSetMuxState "Ethernet0" MuxLabel.Unknown =
      some ("Ethernet0", [("state", "unknown")]) ∧
    ("unknown" : String) ≠ "active" ∧ ("unknown" : String) ≠ "standby" :=
  ⟨rfl, by decide, by decide⟩

/-- C2 (amended): for every port name and mux-state label, the toggle-request
handler either publishes nothing (labels `Error` and `Wait`) or publishes a
single `state` field whose value is one of `"active"`, `"standby"`,
`"unknown"`. -/
theorem claim_C2_amended (portName : String) (label : MuxLabel) :
    (handleSetMuxState portName label = none ∧
      (label = .Error ∨ label = .Wait)) ∨
    (∃ v, handleSetMuxState portName label = some (portName, [("state", v)]) ∧
      (v = "active" ∨ v = "standby" ∨ v = "unknown")) := by
  cases label
  case Active => exact Or.inr ⟨"active", rfl, Or.inl rfl⟩
  case Standby => exact Or.inr ⟨"standby", rfl, Or.inr (Or.inl rfl)⟩
  case Unknown => exact Or.inr ⟨"unknown", rfl, Or.inr (Or.inr rfl)⟩
  case Error => exact Or.inl ⟨rfl, Or.inl rfl⟩
  case Wait => exact Or.inl ⟨rfl, Or.inr rfl⟩

/-- Each reconciliation update adds its increment to the shared counter. -/
theorem handleUpdateReconciliationCount_count (inc : Int)
    (s : ReconciliationState) :
    (handleUpdateReconciliationCount inc s).1.portReconciliationCount =
      s.portReconciliationCount + inc := by
  by_cases h : s.portReconciliationCount + inc = 0 <;>
    simp [handleUpdateReconciliationCount, h]

/-- C9: over every sequence of reconciliation-count updates the shared
counter accumulates the sum of the increments; a single update cancels the
reconciliation timer exactly when the updated counter is zero; and the
warm-restart timeout handler always marks the warm-start state reconciled
(in particular when it fires before the counter reaches zero). -/
theorem claim_C9 :
    (∀ (s : ReconciliationState) (incs : List Int),
      (applyReconciliationUpdates incs s).portReconciliationCount =
        s.portReconciliationCount + incs.sum) ∧
    (∀ (s : ReconciliationState) (inc : Int),
      ((handleUpdateReconciliationCount inc s).2 = true ↔
        s.portReconciliationCount + inc = 0) ∧
      ((handleUpdateReconciliationCount inc s).2 = true →
        (handleUpdateReconciliationCount inc s).1.timerCancelled = true)) ∧
    (∀ (b : Bool) (s : ReconciliationState),
      (handleWarmRestartReconciliationTimeout b s).warmStartReconciled =
        true) := by
  refine ⟨?_, ?_, ?_⟩
  · intro s incs
    induction incs generalizing s with
    | nil => simp [applyReconciliationUpdates]
    | cons i rest ih =>
      have h := ih (handleUpdateReconciliationCount i s).1
      simp only [applyReconciliationUpdates, List.foldl_cons] at h ⊢
      rw [h, handleUpdateReconciliationCount_count, List.sum_cons, add_assoc]
  · intro s inc
    constructor
    · by_cases h : s.portReconciliationCount + inc = 0 <;>
        simp [handleUpdateReconciliationCount, h]
    · by_cases h : s.portReconciliationCount + inc = 0 <;>
        simp [handleUpdateReconciliationCount, h]
  · intro b s
    rfl

/-- C10: a default-route notification records the report in the matching
address-family slot; the value delivered to the ports is `"ok"` exactly when
the (possibly just-updated) IPv4 default-route state is `"ok"` and `"na"`
otherwise, so IPv6 reports never influence it; and every port of the port
map receives that same single value. -/
theorem claim_C10 (s : RouteMgrState) (isV4 : Bool) (routeState : String) :
    (addOrUpdateDefaultRouteState isV4 routeState s).1.ipv4DefaultRouteState =
      (if isV4 then routeState else s.ipv4DefaultRouteState) ∧
    (addOrUpdateDefaultRouteState isV4 routeState s).1.portMap = s.portMap ∧
    (addOrUpdateDefaultRouteState isV4 routeState s).2 =
      s.portMap.map (fun p =>
        (p, if (if isV4 then routeState else s.ipv4DefaultRouteState) = "ok"
            then "ok" else "na")) := by
  cases isV4 <;> simp [addOrUpdateDefaultRouteState]

/-- Folding boolean disjunction over a list from an accumulator is the
disjunction of the accumulator with `List.any`. -/
theorem foldl_or_eq_any {α : Type} (f : α → Bool) (l : List α) (b : Bool) :
    l.foldl (fun acc x => acc || f x) b = (b || l.any f) := by
  induction l generalizing b with
  | nil => simp
  | cons x xs ih => simp [List.any_cons, ih, Bool.or_assoc]

/-- C7: `getTorMacAddress` throws `ConfigNotFound` exactly when the
DeviceMetadata `mac` field is absent or the MAC string fails to parse;
`processLoopback2InterfaceInfo` throws `ConfigNotFound` exactly when no
LoopbackInterfaces key yields a valid Loopback2 IPv4 address; and the
startup sequence produces its supervisor list exactly when both config reads
succeed, so either error is fatal and no supervisors are created. -/
theorem claim_C7 (parseOk : String → Bool) (parseAddr : String → AddrKind)
    (macField : Option String) (loopbackIntfs : List String)
    (serverIpPorts : List String) :
    (getTorMacAddress parseOk macField = .error .ConfigNotFound ↔
      macField = none ∨ ∃ mac, macField = some mac ∧ parseOk mac = false) ∧
    (processLoopback2InterfaceInfo parseAddr loopbackIntfs =
        .error .ConfigNotFound ↔
      ∀ key ∈ loopbackIntfs, loopback2YieldsV4 parseAddr key = false) ∧
    (∀ res, startupSupervisors parseOk parseAddr macField loopbackIntfs
        serverIpPorts = .ok res ↔
      (getTorMacAddress parseOk macField = .ok () ∧
       processLoopback2InterfaceInfo parseAddr loopbackIntfs = .ok () ∧
       res = serverIpPorts)) := by
  refine ⟨?_, ?_, ?_⟩
  · cases macField with
    | none => simp [getTorMacAddress]
    | some mac =>
      by_cases h : parseOk mac <;> simp [getTorMacAddress, h]
  · unfold processLoopback2InterfaceInfo
    rw [foldl_or_eq_any]
    by_cases h : loopbackIntfs.any (loopback2YieldsV4 parseAddr) <;>
      simp_all [List.any_eq_true]
  · intro res
    unfold startupSupervisors
    cases h1 : getTorMacAddress parseOk macField with
    | error e => simp [bind, Except.bind]
    | ok u =>
      cases u
      cases h2 : processLoopback2InterfaceInfo parseAddr loopbackIntfs with
      | error e => simp [bind, Except.bind, h1, h2]
      | ok v =>
        cases v
        simp [bind, Except.bind, h1, h2, pure, Except.pure, eq_comm]

/-- Witness for C7 at concrete inputs: a table whose `mac` parse fails
throws `ConfigNotFound`, a key list with no valid Loopback2 IPv4 leaves the
error in place, and the startup sequence then creates no supervisors. -/
theorem claim_C7_witness :
    getTorMacAddress (fun _ => false) (some "junk") =
      .error .ConfigNotFound ∧
    processLoopback2InterfaceInfo (fun _ => .Invalid) ["Loopback0|10.0.0.1/32"] =
      .error .ConfigNotFound ∧
    ∀ res, startupSupervisors (fun _ => false) (fun _ => .Invalid)
      (some "junk") ["Loopback0|10.0.0.1/32"] ["Ethernet0"] ≠ .ok res := by
  refine ⟨?_, ?_, ?_⟩
  · exact (claim_C7 (fun _ => false) (fun _ => .Invalid) (some "junk")
      ["Loopback0|10.0.0.1/32"] ["Ethernet0"]).1.mpr
      (Or.inr ⟨"junk", rfl, rfl⟩)
  · exact (claim_C7 (fun _ => false) (fun _ => .Invalid) (some "junk")
      ["Loopback0|10.0.0.1/32"] ["Ethernet0"]).2.1.mpr (by decide)
  · intro res hok
    have h := (claim_C7 (fun _ => false) (fun _ => .Invalid) (some "junk")
      ["Loopback0|10.0.0.1/32"] ["Ethernet0"]).2.2 res |>.mp hok
    have h1 := h.1
    rw [show getTorMacAddress (fun _ => false) (some "junk") =
      .error .ConfigNotFound from rfl] at h1
    exact Except.noConfusion h1

/-- A malformed integer for one of the five recognised tunables makes the
corresponding assignment throw inside the `try` block. -/
theorem applyLinkProberField_malformed (lexCast : String → Option Nat)
    (cfg : LinkProberConfig) (f v : String)
    (hf : isLinkProberIntField f = true) (hv : lexCast v = none) :
    applyLinkProberField lexCast cfg f v = none := by
  simp only [isLinkProberIntField, Bool.or_eq_true, decide_eq_true_eq] at hf
  rcases hf with (((h | h) | h) | h) | h <;> subst h <;>
    simp [applyLinkProberField, hv]

/-- C8: when the `LINK_PROBER` field values contain a malformed integer for
one of the five tunables, processing stops at that assignment with the
configuration exactly as the preceding assignments left it — the setter is
never invoked with a value derived from the malformed string — and a
bad-lexical-cast warning is recorded instead of an escaping exception. -/
theorem claim_C8 (lexCast : String → Option Nat) (cfg : LinkProberConfig)
    (pre : List (String × String)) (f v : String)
    (rest : List (String × String))
    (hf : isLinkProberIntField f = true) (hv : lexCast v = none) :
    processLinkProberFields lexCast cfg (pre ++ (f, v) :: rest) =
      ((processLinkProberFields lexCast cfg pre).1, true) := by
  induction pre generalizing cfg with
  | nil =>
    simp [processLinkProberFields,
      applyLinkProberField_malformed lexCast cfg f v hf hv]
  | cons gw pre ih =>
    obtain ⟨g, w⟩ := gw
    simp only [List.cons_append, processLinkProberFields]
    cases h : applyLinkProberField lexCast cfg g w with
    | some cfg' => simpa using ih cfg'
    | none => rfl

/-- A concrete stand-in for the external `boost::lexical_cast<uint32_t>`,
parsing exactly the two well-formed strings of the C8 witness. -/
def lexCastWitness (v : String) : Option Nat :=
  if v = "200" then some 200 else if v = "999" then some 999 else none

/-- Witness for C8: a malformed `positive_signal_count` leaves the tunables
exactly as the preceding `interval_v4` assignment set them, the malformed
field's tunable keeps its previous value, and the following `suspend_timer`
assignment of the same entry is skipped. -/
theorem claim_C8_witness :
    isLinkProberIntField "positive_signal_count" = true ∧
    lexCastWitness "abc" = none ∧
    processLinkProberFields lexCastWitness
      { timeoutIpv4 := 100, timeoutIpv6 := 100, positiveSignalCount := 1,
        negativeSignalCount := 3, suspendTimer := 500 }
      [("interval_v4", "200"), ("positive_signal_count", "abc"),
        ("suspend_timer", "999")] =
      ({ timeoutIpv4 := 200, timeoutIpv6 := 100, positiveSignalCount := 1,
         negativeSignalCount := 3, suspendTimer := 500 }, true) := by
  refine ⟨by decide, by decide, ?_⟩
  have h := claim_C8 lexCastWitness
    { timeoutIpv4 := 100, timeoutIpv6 := 100, positiveSignalCount := 1,
      negativeSignalCount := 3, suspendTimer := 500 }
    [("interval_v4", "200")] "positive_signal_count" "abc"
    [("suspend_timer", "999")] (by decide) (by decide)
  exact h.trans (by decide)

/-- Below the positive threshold, consecutive `SelfActive` verdicts only
accumulate the consecutive-verdict counter; no sub-state advance and no
action happens. -/
theorem selfActive_iterate_lt (s : PortState) (hpr : s.prober ≠ .Active)
    (hA : s.proberActiveCount = 0) (hU : s.proberUnknownCount = 0) :
    ∀ j, j < s.config.positiveThreshold →
      (handleSelfActive)^[j] s =
        { s with proberActiveCount := j, proberUnknownCount := 0 } := by
  intro j
  induction j with
  | zero =>
    intro _
    simp only [Function.iterate_zero, id_eq]
    ext <;> simp [hA, hU]
  | succ j ih =>
    intro hj
    rw [Function.iterate_succ_apply', ih (Nat.lt_of_succ_lt hj)]
    simp [handleSelfActive, hpr, Nat.not_le.mpr hj]

/-- C1: from composite `(Unknown, Standby, Up)` in `Auto` mode with the
standby mux state confirmed (hysteresis counters cleared), delivering
exactly `PositiveStateChangeRetryCount` consecutive `SelfActive` verdicts
raises the set-mux-state invoke count by exactly one, makes `Active` the
last requested target, and moves the composite to `(Active, Active, Up)`. -/
theorem claim_C1 (s : PortState) (k : Nat)
    (hk : s.config.positiveThreshold = k) (hk1 : 1 ≤ k)
    (hpr : s.prober = .Unknown) (hmx : s.mux = .Standby)
    (hlk : s.link = .Up) (hmode : s.mode = .Auto)
    (hA : s.proberActiveCount = 0) (hU : s.proberUnknownCount = 0) :
    ((handleSelfActive)^[k] s).setMuxStateInvokeCount =
      s.setMuxStateInvokeCount + 1 ∧
    ((handleSelfActive)^[k] s).lastSetMuxState = some .Active ∧
    compositeOf ((handleSelfActive)^[k] s) = (.Active, .Active, .Up) := by
  obtain ⟨j, rfl⟩ : ∃ j, k = j + 1 :=
    ⟨k - 1, (Nat.succ_pred_eq_of_pos hk1).symm⟩
  have hpr' : s.prober ≠ .Active := by rw [hpr]; intro h; cases h
  have hiter := selfActive_iterate_lt s hpr' hA hU j (by omega)
  rw [Function.iterate_succ_apply', hiter]
  simp [handleSelfActive, proberAdvance, switchMuxState, compositeOf,
    hpr, hmx, hlk, hmode, hk]

/-- Witness for C1 at the state the `setMuxStandby` test fixture reaches:
three `SelfActive` verdicts produce exactly one toggle to `Active` and the
composite `(Active, Active, Up)`. -/
theorem claim_C1_witness :
    muxStandbyState.config.positiveThreshold = 3 ∧
    compositeOf muxStandbyState =
      (ProberLabel.Unknown, MuxLabel.Standby, LinkLabel.Up) ∧
    ((handleSelfActive)^[3] muxStandbyState).setMuxStateInvokeCount =
      muxStandbyState.setMuxStateInvokeCount + 1 ∧
    ((handleSelfActive)^[3] muxStandbyState).lastSetMuxState =
      some MuxLabel.Active ∧
    compositeOf ((handleSelfActive)^[3] muxStandbyState) =
      (ProberLabel.Active, MuxLabel.Active, LinkLabel.Up) := by
  have h := claim_C1 muxStandbyState 3 (by decide) (by decide) (by decide)
    (by decide) (by decide) (by decide) (by decide) (by decide)
  exact ⟨by decide, by decide, h.1, h.2.1, h.2.2⟩

/-- A single peer-only signal never changes the local composite tuple or
the local toggle-request counter. -/
theorem stepPeerEvent_preserves_local (e : PeerEvent) (s : PortState) :
    compositeOf (stepPeerEvent e s) = compositeOf s ∧
    (stepPeerEvent e s).setMuxStateInvokeCount = s.setMuxStateInvokeCount := by
  cases e <;>
    simp only [stepPeerEvent, handlePeerActive, handlePeerUnknown,
      handlePeerMuxReport, peerProberAdvance, switchPeerMuxState] <;>
    first
      | (split_ifs <;> simp [compositeOf])
      | simp [compositeOf]

/-- C4: processing any sequence of peer-only signals (peer prober verdicts
and peer mux-state reports) issues no local toggle request and leaves the
local composite tuple unchanged. -/
theorem claim_C4 (events : List PeerEvent) (s : PortState) :
    compositeOf (applyPeerEvents events s) = compositeOf s ∧
    (applyPeerEvents events s).setMuxStateInvokeCount =
      s.setMuxStateInvokeCount := by
  induction events generalizing s with
  | nil => exact ⟨rfl, rfl⟩
  | cons e rest ih =>
    have h1 := stepPeerEvent_preserves_local e s
    have h2 := ih (stepPeerEvent e s)
    simp only [applyPeerEvents, List.foldl_cons] at h2 ⊢
    exact ⟨h2.1.trans h1.1, h2.2.trans h1.2⟩

/-- The claim that every advance of the peer prober to `PeerUnknown` with
mode not `Detached` issues exactly one peer-switch request fails at the
reachable state of the `setMuxStandby` fixture (composite
`(Unknown, Standby, Up)`, mode `Auto`): three `PeerUnknown` verdicts advance
the peer prober sub-state to `PeerUnknown` while the peer-switch invoke
count stays at zero, matching the `MuxStandbyLinkProberPeerUnknown` unit
test. -/
theorem claim_C3_counterexample :
    muxStandbyState.peerProber = PeerProberLabel.PeerWait ∧
    ((handlePeerUnknown)^[3] muxStandbyState).peerProber =
      PeerProberLabel.PeerUnknown ∧
    ((handlePeerUnknown)^[3] muxStandbyState).mode ≠ Mode.Detached ∧
    ((handlePeerUnknown)^[3] muxStandbyState).setPeerMuxStateInvokeCount =
      0 := by
  exact ⟨by decide, by decide, by decide, by decide⟩

/-- C3 (amended): when a `PeerUnknown` verdict advances the peer prober
sub-state to `PeerUnknown`, a peer-switch request setting the peer mux state
to `Standby` is issued exactly once if the mode is not `Detached` and the
local link prober is `Active`; if the mode is `Detached` or the local prober
is not `Active`, no peer-switch request is issued. -/
theorem claim_C3_amended (s : PortState)
    (h1 : s.peerProber ≠ .PeerUnknown)
    (h2 : s.config.negativeThreshold ≤ s.peerUnknownCount + 1) :
    (handlePeerUnknown s).peerProber = .PeerUnknown ∧
    (s.mode ≠ .Detached ∧ s.prober = .Active →
      (handlePeerUnknown s).setPeerMuxStateInvokeCount =
        s.setPeerMuxStateInvokeCount + 1 ∧
      (handlePeerUnknown s).lastSetPeerMuxState = some .Standby ∧
      (handlePeerUnknown s).peerMux = .Standby) ∧
    (s.mode = .Detached ∨ s.prober ≠ .Active →
      (handlePeerUnknown s).setPeerMuxStateInvokeCount =
        s.setPeerMuxStateInvokeCount) := by
  have hstep : handlePeerUnknown s =
      peerProberAdvance .PeerUnknown
        { s with peerActiveCount := 0, peerUnknownCount := 0 } := by
    simp [handlePeerUnknown, h1, h2]
  rw [hstep]
  simp only [peerProberAdvance]
  by_cases hc : s.mode ≠ .Detached ∧ s.prober = .Active
  · refine ⟨?_, fun _ => ?_, fun hneg => ?_⟩
    · simp [hc, switchPeerMuxState]
    · simp [hc, switchPeerMuxState]
    · rcases hneg with hd | hp
      · exact absurd hd hc.1
      · exact absurd hc.2 hp
  · refine ⟨?_, fun hpos => absurd hpos hc, ?_⟩
    · simp [hc]
    · intro _
      simp [hc]

/-- Witness for C3 (amended) at the state the `setMuxActive` fixture
reaches after two `PeerUnknown` verdicts: the third verdict advances the
peer prober and, with mode `Auto` and local prober `Active`, issues exactly
one peer-switch request to `Standby`. -/
theorem claim_C3_witness :
    ((handlePeerUnknown)^[2] muxActiveState).peerProber ≠
      PeerProberLabel.PeerUnknown ∧
    (handlePeerUnknown ((handlePeerUnknown)^[2] muxActiveState)).peerProber =
      PeerProberLabel.PeerUnknown ∧
    (handlePeerUnknown
        ((handlePeerUnknown)^[2] muxActiveState)).setPeerMuxStateInvokeCount =
      ((handlePeerUnknown)^[2] muxActiveState).setPeerMuxStateInvokeCount +
        1 ∧
    (handlePeerUnknown
        ((handlePeerUnknown)^[2] muxActiveState)).lastSetPeerMuxState =
      some MuxLabel.Standby := by
  have h := claim_C3_amended ((handlePeerUnknown)^[2] muxActiveState)
    (by decide) (by decide)
  have hpos := h.2.1 ⟨by decide, by decide⟩
  exact ⟨by decide, h.1, hpos.1, hpos.2.1⟩

/-- A mux-state report matching the composite mux label only clears the
pending-report counter: a confirming report triggers no transition. -/
theorem handleMuxReport_confirmed (s : PortState) (r : MuxLabel)
    (hr : r = s.mux) :
    handleMuxReport r s =
      { s with muxReportLabel := r, muxReportCount := 0 } := by
  simp [handleMuxReport, hr]

/-- Any positive number of re-deliveries of the confirmed mux-state report
reaches the same fixed state: the report label recorded, the counter
cleared, and every other field untouched. -/
theorem muxReport_iterate_confirmed (s : PortState) (r : MuxLabel)
    (hr : r = s.mux) :
    ∀ n, 1 ≤ n →
      (handleMuxReport r)^[n] s =
        { s with muxReportLabel := r, muxReportCount := 0 } := by
  intro n
  induction n with
  | zero => intro h; cases h
  | succ n ih =>
    intro _
    rcases Nat.eq_zero_or_pos n with hz | hpos
    · subst hz
      simpa using handleMuxReport_confirmed s r hr
    · rw [Function.iterate_succ_apply', ih hpos]
      exact handleMuxReport_confirmed _ r hr

/-- C6: re-delivering a mux-state report equal to the already-confirmed
composite mux label, any number of times, produces no new toggle request and
leaves the composite tuple unchanged. -/
theorem claim_C6 (s : PortState) (r : MuxLabel) (hr : r = s.mux) (n : Nat) :
    compositeOf ((handleMuxReport r)^[n] s) = compositeOf s ∧
    ((handleMuxReport r)^[n] s).setMuxStateInvokeCount =
      s.setMuxStateInvokeCount := by
  rcases Nat.eq_zero_or_pos n with hz | hpos
  · subst hz; exact ⟨rfl, rfl⟩
  · rw [muxReport_iterate_confirmed s r hr n hpos]
    exact ⟨rfl, rfl⟩

/-- Witness for C6 at the state the `setMuxActive` fixture reaches: five
further `active` driver reports change neither the composite tuple nor the
toggle count. -/
theorem claim_C6_witness :
    MuxLabel.Active = muxActiveState.mux ∧
    compositeOf ((handleMuxReport MuxLabel.Active)^[5] muxActiveState) =
      compositeOf muxActiveState ∧
    ((handleMuxReport MuxLabel.Active)^[5]
        muxActiveState).setMuxStateInvokeCount =
      muxActiveState.setMuxStateInvokeCount := by
  have h := claim_C6 muxActiveState MuxLabel.Active (by decide) 5
  exact ⟨by decide, h.1, h.2⟩

/-- A `SelfActive` verdict while the prober sub-state is already `Active`
only clears the consecutive-verdict counters. -/
theorem handleSelfActive_active (s : PortState) (h : s.prober = .Active) :
    handleSelfActive s =
      { s with proberActiveCount := 0, proberUnknownCount := 0 } := by
  simp [handleSelfActive, h]

/-- While the prober sub-state is `Active`, any number of further
`SelfActive` verdicts preserves the sub-state, the composite labels, the
mode and both toggle-request observables. -/
theorem selfActive_iterate_active (s : PortState) (h : s.prober = .Active) :
    ∀ n,
      ((handleSelfActive)^[n] s).prober = .Active ∧
      ((handleSelfActive)^[n] s).mux = s.mux ∧
      ((handleSelfActive)^[n] s).link = s.link ∧
      ((handleSelfActive)^[n] s).mode = s.mode ∧
      ((handleSelfActive)^[n] s).setMuxStateInvokeCount =
        s.setMuxStateInvokeCount ∧
      ((handleSelfActive)^[n] s).lastSetMuxState = s.lastSetMuxState := by
  intro n
  induction n with
  | zero => exact ⟨h, rfl, rfl, rfl, rfl, rfl⟩
  | succ n ih =>
    rw [Function.iterate_succ_apply',
      handleSelfActive_active _ ih.1]
    exact ⟨ih.1, ih.2.1, ih.2.2.1, ih.2.2.2.1, ih.2.2.2.2.1, ih.2.2.2.2.2⟩

/-- A config change back to `auto` while the composite is
`(Active, Standby, Up)` re-evaluates the tuple and requests a toggle to
`Active`. -/
theorem handleMuxConfig_auto_toggle (t : PortState) (hp : t.prober = .Active)
    (hm : t.mux = .Standby) (hl : t.link = .Up) :
    handleMuxConfig "auto" t = switchMuxState .Active { t with mode := .Auto } := by
  simp [handleMuxConfig, parseMode, hp, hm, hl]

/-- C5: from composite `(Active, Active, Up)` in `Auto` mode, a config
change to `standby` issues exactly one toggle request with target `Standby`
and moves the composite to `(Active, Standby, Up)`; while the mode stays
`Standby`, any number of further `SelfActive` verdicts issues no toggle and
leaves the composite unchanged; a config change back to `auto` then issues
exactly one further toggle with target `Active`, restoring
`(Active, Active, Up)`. -/
theorem claim_C5 (s : PortState) (hpr : s.prober = .Active)
    (hmx : s.mux = .Active) (hlk : s.link = .Up) (_hmode : s.mode = .Auto) :
    (handleMuxConfig "standby" s).setMuxStateInvokeCount =
      s.setMuxStateInvokeCount + 1 ∧
    (handleMuxConfig "standby" s).lastSetMuxState = some .Standby ∧
    compositeOf (handleMuxConfig "standby" s) = (.Active, .Standby, .Up) ∧
    (∀ n,
      compositeOf ((handleSelfActive)^[n] (handleMuxConfig "standby" s)) =
        (.Active, .Standby, .Up) ∧
      ((handleSelfActive)^[n]
          (handleMuxConfig "standby" s)).setMuxStateInvokeCount =
        s.setMuxStateInvokeCount + 1) ∧
    (∀ n,
      (handleMuxConfig "auto"
          ((handleSelfActive)^[n]
            (handleMuxConfig "standby" s))).setMuxStateInvokeCount =
        s.setMuxStateInvokeCount + 2 ∧
      (handleMuxConfig "auto"
          ((handleSelfActive)^[n]
            (handleMuxConfig "standby" s))).lastSetMuxState =
        some .Active ∧
      compositeOf (handleMuxConfig "auto"
          ((handleSelfActive)^[n] (handleMuxConfig "standby" s))) =
        (.Active, .Active, .Up)) := by
  have hs1 : handleMuxConfig "standby" s =
      switchMuxState .Standby { s with mode := .Standby } := by
    simp [handleMuxConfig, parseMode, hmx]
  have hinv : ∀ n,
      ((handleSelfActive)^[n] (handleMuxConfig "standby" s)).prober =
          .Active ∧
      ((handleSelfActive)^[n] (handleMuxConfig "standby" s)).mux =
          .Standby ∧
      ((handleSelfActive)^[n] (handleMuxConfig "standby" s)).link = .Up ∧
      ((handleSelfActive)^[n] (handleMuxConfig "standby" s)).mode =
          .Standby ∧
      ((handleSelfActive)^[n]
          (handleMuxConfig "standby" s)).setMuxStateInvokeCount =
        s.setMuxStateInvokeCount + 1 ∧
      ((handleSelfActive)^[n]
          (handleMuxConfig "standby" s)).lastSetMuxState =
        some .Standby := by
    intro n
    have hp : (handleMuxConfig "standby" s).prober = .Active := by
      rw [hs1]; exact hpr
    have h := selfActive_iterate_active (handleMuxConfig "standby" s) hp n
    refine ⟨h.1, ?_, ?_, ?_, ?_, ?_⟩
    · rw [h.2.1, hs1]; rfl
    · rw [h.2.2.1, hs1]; exact hlk
    · rw [h.2.2.2.1, hs1]; rfl
    · rw [h.2.2.2.2.1, hs1]; rfl
    · rw [h.2.2.2.2.2, hs1]; rfl
  refine ⟨?_, ?_, ?_, ?_, ?_⟩
  · rw [hs1]; rfl
  · rw [hs1]; rfl
  · rw [hs1]
    simp only [compositeOf, switchMuxState]
    rw [hpr, hlk]
  · intro n
    obtain ⟨hp, hm, hl, _, hc, _⟩ := hinv n
    exact ⟨by simp only [compositeOf, hp, hm, hl], hc⟩
  · intro n
    obtain ⟨hp, hm, hl, _, hc, _⟩ := hinv n
    rw [handleMuxConfig_auto_toggle _ hp hm hl]
    refine ⟨?_, rfl, ?_⟩
    · simp only [switchMuxState]
      rw [hc]
    · simp only [compositeOf, switchMuxState]
      rw [hp, hl]

/-- Witness for C5 at the state the `setMuxActive` fixture reaches, with
four intervening `SelfActive` verdicts while the mode override is in
effect. -/
theorem claim_C5_witness :
    compositeOf muxActiveState =
      (ProberLabel.Active, MuxLabel.Active, LinkLabel.Up) ∧
    compositeOf ((handleSelfActive)^[4]
        (handleMuxConfig "standby" muxActiveState)) =
      (ProberLabel.Active, MuxLabel.Standby, LinkLabel.Up) ∧
    ((handleSelfActive)^[4]
        (handleMuxConfig "standby" muxActiveState)).setMuxStateInvokeCount =
      muxActiveState.setMuxStateInvokeCount + 1 ∧
    (handleMuxConfig "auto" ((handleSelfActive)^[4]
        (handleMuxConfig "standby" muxActiveState))).setMuxStateInvokeCount =
      muxActiveState.setMuxStateInvokeCount + 2 ∧
    compositeOf (handleMuxConfig "auto" ((handleSelfActive)^[4]
        (handleMuxConfig "standby" muxActiveState))) =
      (ProberLabel.Active, MuxLabel.Active, LinkLabel.Up) := by
  have h := claim_C5 muxActiveState (by decide) (by decide) (by decide)
    (by decide)
  exact ⟨by decide, (h.2.2.2.1 4).1, (h.2.2.2.1 4).2, (h.2.2.2.2 4).1,
    (h.2.2.2.2 4).2.2⟩

end Linkmgrd
